import Mathlib

/-!
Shallow embedding of the quota aggregation and dispatch core of
vsc-filesystems-quota (src/lib/vsc/filesystem/quota/tools.py and
src/lib/vsc/filesystem/quota/inodelog.py), with theorems checking the
natural-language specification against it.

Conventions:
* Python integers are modelled as `Int`; Python floor division `//` is
  `Int.fdiv`.
* Python `None`-able values are `Option`s; Python dicts keyed by fileset
  name are association lists.
* The float threshold of the inode scan is modelled as an exact rational.
* External collaborators (the storage operator's grace-period resolver and
  fileset-name lookup, the REST client) are parameters; the record of
  remote invocations is kept as an explicit trace in the dispatcher state.
-/

/-- Modelled from the spec: `QuotaValue` lives in `vsc.filesystem.quota.entities`,
which is imported by `tools.py` but is not part of the sources here. Field
list follows spec section 3 and the attribute accesses in
`DjangoPusher.push_quota` and `_update_quota_entity`: block counters,
inode counters, the two `(expired, remaining)` grace pairs, a timestamp. -/
structure QuotaValue where
  used : Int
  soft : Int
  hard : Int
  doubt : Int
  expired : Bool × Option Int
  files_used : Int
  files_soft : Int
  files_hard : Int
  files_doubt : Int
  files_expired : Bool × Option Int
  timestamp : Int
  deriving Repr, DecidableEq

/-- Modelled from the spec: minimum of the non-None remaining-seconds values
(spec section 4.2: "remaining-seconds takes the minimum of the non-None
values"). -/
def minOptRemaining : Option Int → Option Int → Option Int
  | none, none => none
  | some a, none => some a
  | none, some b => some b
  | some a, some b => some (min a b)

/-- Modelled from the spec: merging two quota sub-records for the same
fileset (spec section 4.2): counters are accumulated by summation, the
grace-expiry flags combine by logical OR, remaining seconds take the
minimum of the non-None values, and the timestamp is the incoming one. -/
def mergeQuotaValue (old v : QuotaValue) : QuotaValue :=
  { used := old.used + v.used
    soft := old.soft + v.soft
    hard := old.hard + v.hard
    doubt := old.doubt + v.doubt
    expired := (old.expired.1 || v.expired.1, minOptRemaining old.expired.2 v.expired.2)
    files_used := old.files_used + v.files_used
    files_soft := old.files_soft + v.files_soft
    files_hard := old.files_hard + v.files_hard
    files_doubt := old.files_doubt + v.files_doubt
    files_expired :=
      (old.files_expired.1 || v.files_expired.1,
       minOptRemaining old.files_expired.2 v.files_expired.2)
    timestamp := v.timestamp }

/-- Modelled from the spec: `QuotaEntity` (variants `QuotaUser`,
`QuotaFileset` in `vsc.filesystem.quota.entities`, not part of the sources
here). It owns a mapping from fileset name (None for the default fileset)
to `QuotaValue`, kept as an association list with unique keys. -/
structure QuotaEntity where
  storage_name : String
  filesystem : String
  owner : String
  quota_map : List (Option String × QuotaValue)
  deriving Repr, DecidableEq

/-- Lookup in the fileset map of a quota entity. -/
def lookupQuota : List (Option String × QuotaValue) → Option String → Option QuotaValue
  | [], _ => none
  | (k, v) :: rest, f => if k = f then some v else lookupQuota rest f

/-- Replace the value bound to a fileset key, leaving other bindings alone. -/
def replaceQuota : List (Option String × QuotaValue) → Option String → QuotaValue →
    List (Option String × QuotaValue)
  | [], _, _ => []
  | (k, v) :: rest, f, w =>
      if k = f then (k, w) :: rest else (k, v) :: replaceQuota rest f w

/-- Modelled from the spec: `QuotaEntity.update` (spec section 4.2) upserts
the named fileset's QuotaValue; if the fileset already has a value for this
aggregation pass the values are merged with `mergeQuotaValue` (sum the
counters, OR the expiry flags, min the non-None remaining seconds) instead
of being replaced. -/
def QuotaEntity.update (e : QuotaEntity) (fileset : Option String) (v : QuotaValue) :
    QuotaEntity :=
  match lookupQuota e.quota_map fileset with
  | some old => { e with quota_map := replaceQuota e.quota_map fileset (mergeQuotaValue old v) }
  | none => { e with quota_map := e.quota_map ++ [(fileset, v)] }

/-- Modelled from the spec: `QuotaEntity.exceeds` (spec section 3) is true
when some fileset entry has block usage strictly above the block soft limit
or inode usage strictly above the inode soft limit. -/
def QuotaEntity.exceeds (e : QuotaEntity) : Bool :=
  e.quota_map.any fun p =>
    decide (p.2.soft < p.2.used) || decide (p.2.files_soft < p.2.files_used)

/-- One raw quota record as produced by the storage backend
(`StorageQuota` named tuple, see the field accesses in
`_update_quota_entity` in tools.py and the interface shape in spec
section 6). `filesetname` holds the raw fileset ID, None or empty when
the record is a default/no-fileset quota. -/
structure StorageQuota where
  blockUsage : Int
  blockQuota : Int
  blockLimit : Int
  blockInDoubt : Int
  blockGrace : String
  filesUsage : Int
  filesQuota : Int
  filesLimit : Int
  filesInDoubt : Int
  filesGrace : String
  filesetname : Option String
  deriving Repr, DecidableEq

/-- tools.py `_update_quota_entity`, fileset-name resolution step: a falsy
`filesetname` (None or empty string) maps to None, otherwise the raw ID is
resolved through the operator's `get_fileset_name` (a parameter here). -/
def filesetNameOf (getFilesetName : String → String) (q : StorageQuota) : Option String :=
  match q.filesetname with
  | none => none
  | some fid => if fid = "" then none else some (getFilesetName fid)

/-- tools.py `_update_quota_entity`, per-record value construction: block
counters are floor-divided by the data replication factor, inode counters
are taken exactly as reported, grace pairs come from the operator's
`determine_grace_periods` (the `grace` parameter). -/
def quotaValueOf (grace : StorageQuota → (Bool × Option Int) × (Bool × Option Int))
    (replication_factor : Int) (timestamp : Int) (q : StorageQuota) : QuotaValue :=
  { used := q.blockUsage.fdiv replication_factor
    soft := q.blockQuota.fdiv replication_factor
    hard := q.blockLimit.fdiv replication_factor
    doubt := q.blockInDoubt.fdiv replication_factor
    expired := (grace q).1
    files_used := q.filesUsage
    files_soft := q.filesQuota
    files_hard := q.filesLimit
    files_doubt := q.filesInDoubt
    files_expired := (grace q).2
    timestamp := timestamp }

/-- tools.py `_update_quota_entity`: fold the list of raw sub-records into
the entity via `QuotaEntity.update` (a single non-list record is passed as
a one-element list by the source's isinstance guard). -/
def update_quota_entity (entity : QuotaEntity) (replication_factor : Int)
    (grace : StorageQuota → (Bool × Option Int) × (Bool × Option Int))
    (getFilesetName : String → String)
    (storage_quotas : List StorageQuota) (timestamp : Int) : QuotaEntity :=
  storage_quotas.foldl
    (fun e q =>
      e.update (filesetNameOf getFilesetName q)
        (quotaValueOf grace replication_factor timestamp q))
    entity

/-- Dispatcher state: the `DjangoPusher` context manager of tools.py. The
two sink keys of its `count`/`payload` dicts are `storage_name` and
`storage_name_shared`; their entries are the `countN`/`payloadN` and
`countS`/`payloadS` fields. `flushLog` is a ghost trace of `_push`
invocations (sink key, number of records); `netCalls` is a ghost trace of
actual remote `cl.size.put` calls, which `_push` performs only in live
mode with a known quota kind. -/
structure PusherState (A : Type) where
  storage_name : String
  storage_name_shared : String
  kind : String
  dry_run : Bool
  countN : Nat
  countS : Nat
  payloadN : List A
  payloadS : List A
  flushLog : List (String × Nat)
  netCalls : List (String × Nat)

/-- `DjangoPusher.__init__`: binds the storage name and its shared variant
(the suffix `STORAGE_SHARED_SUFFIX` comes from external configuration and
is a parameter here), the quota kind and the dry-run flag, and starts both
counters at 0 and both buffers empty. -/
def mkDjangoPusher (A : Type) (storage_name suffix kind : String) (dry_run : Bool) :
    PusherState A :=
  { storage_name := storage_name
    storage_name_shared := storage_name ++ suffix
    kind := kind
    dry_run := dry_run
    countN := 0
    countS := 0
    payloadN := []
    payloadS := []
    flushLog := []
    netCalls := [] }

/-- `DjangoPusher._push`: in dry-run mode only logs; in live mode it
performs the remote put when the quota kind is known ("user" or "vo") and
only logs an error otherwise. Every invocation is recorded in `flushLog`;
the remote put, when it happens, in `netCalls`. `n` is the number of
records in the flushed payload. -/
def pushRemote {A : Type} (s : PusherState A) (key : String) (n : Nat) : PusherState A :=
  let s1 := { s with flushLog := s.flushLog ++ [(key, n)] }
  if s.dry_run then s1
  else if s.kind = "user" ∨ s.kind = "vo" then
    { s1 with netCalls := s1.netCalls ++ [(key, n)] }
  else s1

/-- `DjangoPusher.push`: a payload for an unknown storage key is logged and
dropped; otherwise it is appended to that key's buffer and the key's
counter incremented, and when the counter exceeds 100 the buffer is
flushed through `_push` and both the counter and the buffer are reset. -/
def PusherState.push {A : Type} (s : PusherState A) (storage_name : String) (payload : A) :
    PusherState A :=
  if storage_name = s.storage_name then
    let pN := s.payloadN ++ [payload]
    let cN := s.countN + 1
    if cN > 100 then
      let s1 := pushRemote { s with payloadN := pN, countN := cN } storage_name pN.length
      { s1 with countN := 0, payloadN := [] }
    else { s with payloadN := pN, countN := cN }
  else if storage_name = s.storage_name_shared then
    let pS := s.payloadS ++ [payload]
    let cS := s.countS + 1
    if cS > 100 then
      let s1 := pushRemote { s with payloadS := pS, countS := cS } storage_name pS.length
      { s1 with countS := 0, payloadS := [] }
    else { s with payloadS := pS, countS := cS }
  else s

/-- `DjangoPusher.__exit__`: flush the normal buffer if non-empty, then the
shared buffer if non-empty; return False (do not suppress, i.e. the
original exception propagates) when the scope is exited with an exception,
True otherwise. `exc` is the exception, None on normal exit; the Bool in
the result is `__exit__`'s return value. -/
def djangoExit {A : Type} (s : PusherState A) (exc : Option String) :
    PusherState A × Bool :=
  let s1 := if s.payloadN.isEmpty then s else pushRemote s s.storage_name s.payloadN.length
  let s2 :=
    if s1.payloadS.isEmpty then s1
    else pushRemote s1 s1.storage_name_shared s1.payloadS.length
  match exc with
  | some _ => (s2, false)
  | none => (s2, true)

/-- Wire record built by `DjangoPusher.push_quota`: the `params` dict.
The `user`/`vo` fields model the key added depending on the pusher's
quota kind. -/
structure QuotaParams where
  fileset : Option String
  used : Int
  soft : Int
  hard : Int
  doubt : Int
  expired : Bool
  remaining : Int
  files_used : Int
  files_soft : Int
  files_hard : Int
  files_doubt : Int
  files_expired : Bool
  files_remaining : Int
  user : Option String
  vo : Option String
  deriving Repr, DecidableEq

/-- Python `x or 0` applied to an optional remaining-seconds value: None
becomes 0, a number stays itself (0 maps to 0 either way). -/
def orZero : Option Int → Int
  | none => 0
  | some v => v

/-- `DjangoPusher.push_quota`, flattening step: build the `params` dict
from a QuotaValue, turning each `(expired, remaining)` pair into a Bool
field and an Int field with None remaining defaulted to 0, and adding the
owner under `user` or `vo` according to the pusher's kind. -/
def quotaParamsOf (owner : String) (fileset : Option String) (quota : QuotaValue)
    (kind : String) : QuotaParams :=
  { fileset := fileset
    used := quota.used
    soft := quota.soft
    hard := quota.hard
    doubt := quota.doubt
    expired := quota.expired.1
    remaining := orZero quota.expired.2
    files_used := quota.files_used
    files_soft := quota.files_soft
    files_hard := quota.files_hard
    files_doubt := quota.files_doubt
    files_expired := quota.files_expired.1
    files_remaining := orZero quota.files_expired.2
    user := if kind = "user" then some owner else none
    vo := if kind = "vo" then some owner else none }

/-- `DjangoPusher.push_quota`: flatten the QuotaValue and push it into the
buffer selected by the `shared` flag. -/
def PusherState.push_quota (s : PusherState QuotaParams) (owner : String)
    (fileset : Option String) (quota : QuotaValue) (shared : Bool) :
    PusherState QuotaParams :=
  let params := quotaParamsOf owner fileset quota s.kind
  if shared then s.push s.storage_name_shared params
  else s.push s.storage_name params

/-- Modelled from the spec: reconstruction of a QuotaValue from a wire
record (spec section 8, round-trip property; the reconstruction itself is
performed by the remote sink, outside this repository). Counters are read
back field by field and each expiry pair is rebuilt from the Bool flag and
the (already defaulted) remaining seconds. -/
def reconstructQuotaValue (p : QuotaParams) (timestamp : Int) : QuotaValue :=
  { used := p.used
    soft := p.soft
    hard := p.hard
    doubt := p.doubt
    expired := (p.expired, some p.remaining)
    files_used := p.files_used
    files_soft := p.files_soft
    files_hard := p.files_hard
    files_doubt := p.files_doubt
    files_expired := (p.files_expired, some p.files_remaining)
    timestamp := timestamp }

/-- A dispatcher-lifecycle operation: a buffered push or a scope exit. -/
inductive PusherOp (A : Type) where
  | pushOp : String → A → PusherOp A
  | exitOp : Option String → PusherOp A

/-- Run one dispatcher operation. -/
def runOp {A : Type} (s : PusherState A) : PusherOp A → PusherState A
  | PusherOp.pushOp k p => s.push k p
  | PusherOp.exitOp exc => (djangoExit s exc).1

/-- Run a sequence of dispatcher operations. -/
def runOps {A : Type} (s : PusherState A) (ops : List (PusherOp A)) : PusherState A :=
  ops.foldl runOp s

/-- One fileset entry of the raw fileset listing consumed by
`process_inodes_information` in inodelog.py: the listing key, the
human-readable `filesetName`, and the `allocInodes`/`maxInodes` counts. -/
structure FilesetInfo where
  fs_key : String
  filesetName : String
  allocInodes : Int
  maxInodes : Int
  deriving Repr, DecidableEq

/-- The first inode-quota record for a fileset key (`quota[fs_key][0]` in
inodelog.py): inode usage and inode hard limit. -/
structure InodeQuotaRec where
  filesUsage : Int
  filesLimit : Int
  deriving Repr, DecidableEq

/-- inodelog.py `InodeCritical` named tuple. -/
structure InodeCritical where
  used : Int
  allocated : Int
  maxinodes : Int
  deriving Repr, DecidableEq

/-- The criticality test of `process_inodes_information`: the fileset's
`maxInodes` when the backend is GPFS, otherwise the quota record's inode
hard limit, must be positive, and the inode usage must strictly exceed
`threshold` times it. The float threshold of the source is modelled as an
exact rational. -/
def inodeCriticalCond (quota : String → InodeQuotaRec) (threshold : ℚ) (storage : String)
    (fs : FilesetInfo) : Bool :=
  let maxinodes := if storage = "gpfs" then fs.maxInodes else (quota fs.fs_key).filesLimit
  let used := (quota fs.fs_key).filesUsage
  decide (0 < maxinodes) && decide (threshold * (maxinodes : ℚ) < (used : ℚ))

/-- The entry recorded for a critical fileset by
`process_inodes_information`: keyed by `filesetName`, with the usage, the
allocated count (0 for a non-GPFS backend) and the maximum. -/
def inodeCriticalEntry (quota : String → InodeQuotaRec) (storage : String)
    (fs : FilesetInfo) : String × InodeCritical :=
  (fs.filesetName,
   { used := (quota fs.fs_key).filesUsage
     allocated := if storage = "gpfs" then fs.allocInodes else 0
     maxinodes := if storage = "gpfs" then fs.maxInodes else (quota fs.fs_key).filesLimit })

/-- inodelog.py `process_inodes_information`: walk the fileset listing and
record an `InodeCritical` entry for every fileset whose inode usage passes
the criticality test. The resulting dict is modelled as the list of its
insertions in listing order. -/
def process_inodes_information (filesets : List FilesetInfo)
    (quota : String → InodeQuotaRec) (threshold : ℚ) (storage : String) :
    List (String × InodeCritical) :=
  filesets.foldl
    (fun acc fs =>
      if inodeCriticalCond quota threshold storage fs then
        acc ++ [inodeCriticalEntry quota storage fs]
      else acc)
    []

/-- A live-mode, user-kind dispatcher bound to storage name "st" with the
shared-suffix variant "st_SHARED" (the concrete scenario of the batching
claim). -/
def dispatchInit : PusherState Unit := mkDjangoPusher Unit "st" "_SHARED" "user" false

/-- Push `n` records one at a time into the dispatcher's sink key "st". -/
def pushSeq (s : PusherState Unit) : Nat → PusherState Unit
  | 0 => s
  | n + 1 => (pushSeq s n).push "st" ()

/-- The dispatcher's per-key bookkeeping invariant: each counter equals the
length of its buffer and no buffer holds more than 100 records between
operations. -/
def PusherInv {A : Type} (s : PusherState A) : Prop :=
  s.countN = s.payloadN.length ∧ s.countS = s.payloadS.length ∧
  s.payloadN.length ≤ 100 ∧ s.payloadS.length ≤ 100

instance {A : Type} (s : PusherState A) : Decidable (PusherInv s) := by
  unfold PusherInv
  infer_instance

/-! ### Helper lemmas -/

theorem lookupQuota_append_of_none (l : List (Option String × QuotaValue))
    (f : Option String) (v : QuotaValue) (h : lookupQuota l f = none) :
    lookupQuota (l ++ [(f, v)]) f = some v := by
  induction l with
  | nil => simp [lookupQuota]
  | cons p rest ih =>
    obtain ⟨k, w⟩ := p
    simp only [lookupQuota, List.cons_append] at h ⊢
    by_cases hk : k = f
    · rw [if_pos hk] at h; exact absurd h (by simp)
    · rw [if_neg hk] at h ⊢; exact ih h

theorem lookupQuota_replaceQuota (l : List (Option String × QuotaValue))
    (f : Option String) (old w : QuotaValue) (h : lookupQuota l f = some old) :
    lookupQuota (replaceQuota l f w) f = some w := by
  induction l with
  | nil => simp [lookupQuota] at h
  | cons p rest ih =>
    obtain ⟨k, v⟩ := p
    simp only [lookupQuota, replaceQuota] at h ⊢
    by_cases hk : k = f
    · rw [if_pos hk]; simp [lookupQuota, if_pos hk]
    · rw [if_neg hk] at h ⊢
      simp only [lookupQuota, if_neg hk]
      exact ih h

theorem update_of_lookup_none (e : QuotaEntity) (f : Option String) (v : QuotaValue)
    (h : lookupQuota e.quota_map f = none) :
    e.update f v = { e with quota_map := e.quota_map ++ [(f, v)] } := by
  unfold QuotaEntity.update
  rw [h]

theorem update_of_lookup_some (e : QuotaEntity) (f : Option String) (old v : QuotaValue)
    (h : lookupQuota e.quota_map f = some old) :
    e.update f v =
      { e with quota_map := replaceQuota e.quota_map f (mergeQuotaValue old v) } := by
  unfold QuotaEntity.update
  rw [h]

theorem pushRemote_flushLog {A : Type} (s : PusherState A) (k : String) (n : Nat) :
    (pushRemote s k n).flushLog = s.flushLog ++ [(k, n)] := by
  simp only [pushRemote]
  split
  · rfl
  · split <;> rfl

theorem pushRemote_payloadN {A : Type} (s : PusherState A) (k : String) (n : Nat) :
    (pushRemote s k n).payloadN = s.payloadN := by
  simp only [pushRemote]
  split
  · rfl
  · split <;> rfl

theorem pushRemote_payloadS {A : Type} (s : PusherState A) (k : String) (n : Nat) :
    (pushRemote s k n).payloadS = s.payloadS := by
  simp only [pushRemote]
  split
  · rfl
  · split <;> rfl

theorem pushRemote_countN {A : Type} (s : PusherState A) (k : String) (n : Nat) :
    (pushRemote s k n).countN = s.countN := by
  simp only [pushRemote]
  split
  · rfl
  · split <;> rfl

theorem pushRemote_countS {A : Type} (s : PusherState A) (k : String) (n : Nat) :
    (pushRemote s k n).countS = s.countS := by
  simp only [pushRemote]
  split
  · rfl
  · split <;> rfl

theorem pushRemote_storage_name {A : Type} (s : PusherState A) (k : String) (n : Nat) :
    (pushRemote s k n).storage_name = s.storage_name := by
  simp only [pushRemote]
  split
  · rfl
  · split <;> rfl

theorem pushRemote_storage_name_shared {A : Type} (s : PusherState A) (k : String) (n : Nat) :
    (pushRemote s k n).storage_name_shared = s.storage_name_shared := by
  simp only [pushRemote]
  split
  · rfl
  · split <;> rfl

theorem pushRemote_dry_run {A : Type} (s : PusherState A) (k : String) (n : Nat) :
    (pushRemote s k n).dry_run = s.dry_run := by
  simp only [pushRemote]
  split
  · rfl
  · split <;> rfl

theorem pushRemote_netCalls_of_dry_run {A : Type} (s : PusherState A) (k : String) (n : Nat)
    (h : s.dry_run = true) : (pushRemote s k n).netCalls = s.netCalls := by
  simp only [pushRemote]
  rw [if_pos h]

theorem push_of_unknown_key {A : Type} (s : PusherState A) (k : String) (p : A)
    (h1 : k ≠ s.storage_name) (h2 : k ≠ s.storage_name_shared) : s.push k p = s := by
  simp only [PusherState.push]
  rw [if_neg h1, if_neg h2]

theorem push_inv {A : Type} (s : PusherState A) (k : String) (p : A)
    (h : PusherInv s) : PusherInv (s.push k p) := by
  obtain ⟨h1, h2, h3, h4⟩ := h
  simp only [PusherState.push]
  by_cases hk1 : k = s.storage_name
  · rw [if_pos hk1]
    by_cases hc : s.countN + 1 > 100
    · rw [if_pos hc]
      refine ⟨rfl, ?_, by simp, ?_⟩
      · simp [pushRemote_countS, pushRemote_payloadS, h2]
      · simp [pushRemote_payloadS, h4]
    · rw [if_neg hc]
      refine ⟨by simp [h1], h2, ?_, h4⟩
      simp only [List.length_append, List.length_cons, List.length_nil]
      omega
  · rw [if_neg hk1]
    by_cases hk2 : k = s.storage_name_shared
    · rw [if_pos hk2]
      by_cases hc : s.countS + 1 > 100
      · rw [if_pos hc]
        refine ⟨?_, rfl, ?_, by simp⟩
        · simp [pushRemote_countN, pushRemote_payloadN, h1]
        · simp [pushRemote_payloadN, h3]
      · rw [if_neg hc]
        refine ⟨h1, by simp [h2], h3, ?_⟩
        simp only [List.length_append, List.length_cons, List.length_nil]
        omega
    · rw [if_neg hk2]
      exact ⟨h1, h2, h3, h4⟩

theorem push_normal_leaves_shared {A : Type} (s : PusherState A) (k : String) (p : A)
    (hk : k = s.storage_name) :
    (s.push k p).countS = s.countS ∧ (s.push k p).payloadS = s.payloadS := by
  simp only [PusherState.push]
  rw [if_pos hk]
  by_cases hc : s.countN + 1 > 100
  · rw [if_pos hc]
    exact ⟨by simp [pushRemote_countS], by simp [pushRemote_payloadS]⟩
  · rw [if_neg hc]
    exact ⟨rfl, rfl⟩

theorem push_shared_leaves_normal {A : Type} (s : PusherState A) (k : String) (p : A)
    (hk1 : k ≠ s.storage_name) (hk2 : k = s.storage_name_shared) :
    (s.push k p).countN = s.countN ∧ (s.push k p).payloadN = s.payloadN := by
  simp only [PusherState.push]
  rw [if_neg hk1, if_pos hk2]
  by_cases hc : s.countS + 1 > 100
  · rw [if_pos hc]
    exact ⟨by simp [pushRemote_countN], by simp [pushRemote_payloadN]⟩
  · rw [if_neg hc]
    exact ⟨rfl, rfl⟩

theorem push_normal_autoflush {A : Type} (s : PusherState A) (k : String) (p : A)
    (hk : k = s.storage_name) (hlen : s.countN = s.payloadN.length)
    (hle : s.payloadN.length ≤ 100) (hc : 100 < s.countN + 1) :
    (s.push k p).flushLog = s.flushLog ++ [(k, 101)] ∧
    (s.push k p).payloadN = [] ∧ (s.push k p).countN = 0 := by
  have hlen101 : (s.payloadN ++ [p]).length = 101 := by
    simp only [List.length_append, List.length_cons, List.length_nil]
    omega
  simp only [PusherState.push]
  rw [if_pos hk, if_pos hc]
  refine ⟨?_, rfl, rfl⟩
  rw [pushRemote_flushLog, hlen101]

theorem push_shared_autoflush {A : Type} (s : PusherState A) (k : String) (p : A)
    (hk1 : k ≠ s.storage_name) (hk2 : k = s.storage_name_shared)
    (hlen : s.countS = s.payloadS.length)
    (hle : s.payloadS.length ≤ 100) (hc : 100 < s.countS + 1) :
    (s.push k p).flushLog = s.flushLog ++ [(k, 101)] ∧
    (s.push k p).payloadS = [] ∧ (s.push k p).countS = 0 := by
  have hlen101 : (s.payloadS ++ [p]).length = 101 := by
    simp only [List.length_append, List.length_cons, List.length_nil]
    omega
  simp only [PusherState.push]
  rw [if_neg hk1, if_pos hk2, if_pos hc]
  refine ⟨?_, rfl, rfl⟩
  rw [pushRemote_flushLog, hlen101]

theorem push_dry_run {A : Type} (s : PusherState A) (k : String) (p : A) :
    (s.push k p).dry_run = s.dry_run := by
  simp only [PusherState.push]
  split
  · split
    · simp [pushRemote_dry_run]
    · rfl
  · split
    · split
      · simp [pushRemote_dry_run]
      · rfl
    · rfl

theorem push_netCalls_of_dry_run {A : Type} (s : PusherState A) (k : String) (p : A)
    (h : s.dry_run = true) : (s.push k p).netCalls = s.netCalls := by
  simp only [PusherState.push]
  split
  · split
    · exact pushRemote_netCalls_of_dry_run _ _ _ h
    · rfl
  · split
    · split
      · exact pushRemote_netCalls_of_dry_run _ _ _ h
      · rfl
    · rfl

theorem djangoExit_dry_run {A : Type} (s : PusherState A) (exc : Option String) :
    (djangoExit s exc).1.dry_run = s.dry_run := by
  simp only [djangoExit]
  cases exc <;>
    by_cases h1 : s.payloadN.isEmpty <;> by_cases h2 : s.payloadS.isEmpty <;>
      simp [h1, h2, pushRemote_payloadS, pushRemote_dry_run, pushRemote_storage_name_shared]

theorem djangoExit_netCalls_of_dry_run {A : Type} (s : PusherState A) (exc : Option String)
    (h : s.dry_run = true) : (djangoExit s exc).1.netCalls = s.netCalls := by
  simp only [djangoExit]
  cases exc <;>
    by_cases h1 : s.payloadN.isEmpty <;> by_cases h2 : s.payloadS.isEmpty <;>
      simp [h1, h2, pushRemote_payloadS, pushRemote_dry_run, pushRemote_storage_name_shared,
        pushRemote_netCalls_of_dry_run _ _ _ h]
  all_goals
    rw [pushRemote_netCalls_of_dry_run _ _ _ (by rw [pushRemote_dry_run]; exact h),
      pushRemote_netCalls_of_dry_run _ _ _ h]

theorem runOp_dry_run {A : Type} (s : PusherState A) (op : PusherOp A) :
    (runOp s op).dry_run = s.dry_run := by
  cases op with
  | pushOp k p => exact push_dry_run s k p
  | exitOp exc => exact djangoExit_dry_run s exc

theorem runOp_netCalls_of_dry_run {A : Type} (s : PusherState A) (op : PusherOp A)
    (h : s.dry_run = true) : (runOp s op).netCalls = s.netCalls := by
  cases op with
  | pushOp k p => exact push_netCalls_of_dry_run s k p h
  | exitOp exc => exact djangoExit_netCalls_of_dry_run s exc h

/-! ### Claim theorems -/

/-- C1: calling `update` a second time for the same fileset in one
aggregation pass accumulates the counters by summation rather than
replacing them; across such merges the grace-expiry flags combine by
logical OR and the remaining-seconds fields take the minimum of the
non-None values. -/
theorem update_same_fileset_accumulates (e : QuotaEntity) (f : Option String)
    (v1 v2 : QuotaValue) (h : lookupQuota e.quota_map f = none) :
    lookupQuota ((e.update f v1).update f v2).quota_map f =
      some { used := v1.used + v2.used
             soft := v1.soft + v2.soft
             hard := v1.hard + v2.hard
             doubt := v1.doubt + v2.doubt
             expired := (v1.expired.1 || v2.expired.1,
               minOptRemaining v1.expired.2 v2.expired.2)
             files_used := v1.files_used + v2.files_used
             files_soft := v1.files_soft + v2.files_soft
             files_hard := v1.files_hard + v2.files_hard
             files_doubt := v1.files_doubt + v2.files_doubt
             files_expired := (v1.files_expired.1 || v2.files_expired.1,
               minOptRemaining v1.files_expired.2 v2.files_expired.2)
             timestamp := v2.timestamp } := by
  rw [update_of_lookup_none e f v1 h]
  have h1 : lookupQuota (e.quota_map ++ [(f, v1)]) f = some v1 :=
    lookupQuota_append_of_none _ _ _ h
  rw [update_of_lookup_some _ f v1 v2 h1]
  exact lookupQuota_replaceQuota _ _ _ _ h1

/-- Witness for C1: on an empty entity, update with used 10 then used 5 on
the same fileset yields used 15, the expiry flags OR to true and the
remaining seconds are the minimum of 7 and 9. -/
theorem update_same_fileset_accumulates_witness :
    lookupQuota
        ((((QuotaEntity.mk "st" "fs" "vsc40001" []).update (some "f1")
              (QuotaValue.mk 10 50 60 1 (true, some 9) 3 20 30 2 (false, none) 111)).update
            (some "f1")
            (QuotaValue.mk 5 50 60 1 (false, some 7) 4 20 30 2 (false, some 13) 112)).quota_map)
        (some "f1") =
      some (QuotaValue.mk 15 100 120 2 (true, some 7) 7 40 60 4 (false, some 13) 112) :=
  update_same_fileset_accumulates (QuotaEntity.mk "st" "fs" "vsc40001" []) (some "f1")
    (QuotaValue.mk 10 50 60 1 (true, some 9) 3 20 30 2 (false, none) 111)
    (QuotaValue.mk 5 50 60 1 (false, some 7) 4 20 30 2 (false, some 13) 112) rfl

/-- C2: the quota value that `_update_quota_entity` records for a raw
quota record has its block counters (used, soft, hard, doubt) equal to the
raw block values floor-divided by the replication factor, and its inode
counters equal to the raw inode values exactly, never divided. -/
theorem aggregation_divides_blocks_not_inodes (entity : QuotaEntity)
    (grace : StorageQuota → (Bool × Option Int) × (Bool × Option Int))
    (gfn : String → String) (r ts : Int) (q : StorageQuota)
    (hr : 1 ≤ r)
    (hfresh : lookupQuota entity.quota_map (filesetNameOf gfn q) = none) :
    lookupQuota (update_quota_entity entity r grace gfn [q] ts).quota_map
        (filesetNameOf gfn q) =
      some { used := q.blockUsage.fdiv r
             soft := q.blockQuota.fdiv r
             hard := q.blockLimit.fdiv r
             doubt := q.blockInDoubt.fdiv r
             expired := (grace q).1
             files_used := q.filesUsage
             files_soft := q.filesQuota
             files_hard := q.filesLimit
             files_doubt := q.filesInDoubt
             files_expired := (grace q).2
             timestamp := ts } := by
  show lookupQuota
      (entity.update (filesetNameOf gfn q) (quotaValueOf grace r ts q)).quota_map
      (filesetNameOf gfn q) = _
  rw [update_of_lookup_none _ _ _ hfresh]
  exact lookupQuota_append_of_none _ _ _ hfresh

/-- Witness for C2: replication factor 2 on raw block usage 7 stores
used 3 (floor of 7/2) while the raw inode usage 41 is stored as 41. -/
theorem aggregation_divides_blocks_not_inodes_witness :
    lookupQuota
        (update_quota_entity (QuotaEntity.mk "st" "fs" "vsc40001" []) 2
            (fun _ => ((false, none), (false, none))) (fun x => x)
            [StorageQuota.mk 7 100 200 1 "none" 41 50 60 2 "none" (some "fid1")] 99).quota_map
        (some "fid1") =
      some (QuotaValue.mk 3 50 100 0 (false, none) 41 50 60 2 (false, none) 99) :=
  aggregation_divides_blocks_not_inodes (QuotaEntity.mk "st" "fs" "vsc40001" [])
    (fun _ => ((false, none), (false, none))) (fun x => x) 2 99
    (StorageQuota.mk 7 100 200 1 "none" 41 50 60 2 "none" (some "fid1"))
    (by decide) rfl

/-- C3: `exceeds` is true iff some fileset entry of the entity's map has
block usage strictly above the block soft limit or inode usage strictly
above the inode soft limit, and an entity with an empty map never
exceeds. -/
theorem exceeds_iff_over_soft_limit :
    (∀ e : QuotaEntity,
        e.exceeds = true ↔
          ∃ p ∈ e.quota_map, p.2.soft < p.2.used ∨ p.2.files_soft < p.2.files_used) ∧
    (∀ sn fs ow, (QuotaEntity.mk sn fs ow []).exceeds = false) := by
  constructor
  · intro e
    simp [QuotaEntity.exceeds, List.any_eq_true]
  · intro sn fs ow
    rfl

/-- C5: on scope exit, whether the scope is exited normally or with an
exception, every non-empty buffer (normal and shared) is flushed exactly
once (the flush trace grows by exactly one entry per non-empty buffer,
and by nothing for an empty one); and `__exit__` returns False exactly
when an exception was raised, so the original exception is propagated to
the caller after the flush attempt. -/
theorem exit_flushes_nonempty_buffers_and_propagates {A : Type} (s : PusherState A)
    (exc : Option String) :
    (djangoExit s exc).1.flushLog =
        s.flushLog
          ++ (if s.payloadN.isEmpty then [] else [(s.storage_name, s.payloadN.length)])
          ++ (if s.payloadS.isEmpty then [] else [(s.storage_name_shared, s.payloadS.length)]) ∧
    (djangoExit s exc).2 = exc.isNone := by
  constructor
  · simp only [djangoExit]
    cases exc <;>
      by_cases h1 : s.payloadN.isEmpty <;> by_cases h2 : s.payloadS.isEmpty <;>
        simp [h1, h2, pushRemote_flushLog, pushRemote_payloadS, pushRemote_storage_name,
          pushRemote_storage_name_shared, List.append_assoc]
  · simp only [djangoExit]
    cases exc <;> rfl

/-- C7: the wire record produced by `push_quota` preserves used, soft,
hard, doubt and all four inode counters exactly; each `(expired,
remaining)` pair is flattened into a Bool expired field and an Int
remaining field defaulting to 0 when remaining is None — in particular
`expired = (True, None)` flattens to expired true, remaining 0 — and
reconstruction from the flattened record preserves all eight counters. -/
theorem push_quota_flattening_roundtrip :
    (∀ (owner : String) (fileset : Option String) (q : QuotaValue) (kind : String),
        (quotaParamsOf owner fileset q kind).used = q.used ∧
        (quotaParamsOf owner fileset q kind).soft = q.soft ∧
        (quotaParamsOf owner fileset q kind).hard = q.hard ∧
        (quotaParamsOf owner fileset q kind).doubt = q.doubt ∧
        (quotaParamsOf owner fileset q kind).files_used = q.files_used ∧
        (quotaParamsOf owner fileset q kind).files_soft = q.files_soft ∧
        (quotaParamsOf owner fileset q kind).files_hard = q.files_hard ∧
        (quotaParamsOf owner fileset q kind).files_doubt = q.files_doubt ∧
        (quotaParamsOf owner fileset q kind).expired = q.expired.1 ∧
        (quotaParamsOf owner fileset q kind).remaining = orZero q.expired.2 ∧
        (quotaParamsOf owner fileset q kind).files_expired = q.files_expired.1 ∧
        (quotaParamsOf owner fileset q kind).files_remaining = orZero q.files_expired.2) ∧
    (∀ (owner : String) (fileset : Option String) (kind : String)
        (a1 a2 a3 a4 a5 a6 a7 a8 a9 : Int) (fe : Bool × Option Int),
        (quotaParamsOf owner fileset
            (QuotaValue.mk a1 a2 a3 a4 (true, none) a5 a6 a7 a8 fe a9) kind).expired = true ∧
        (quotaParamsOf owner fileset
            (QuotaValue.mk a1 a2 a3 a4 (true, none) a5 a6 a7 a8 fe a9) kind).remaining = 0) ∧
    (∀ (owner : String) (fileset : Option String) (q : QuotaValue) (kind : String) (ts : Int),
        (reconstructQuotaValue (quotaParamsOf owner fileset q kind) ts).used = q.used ∧
        (reconstructQuotaValue (quotaParamsOf owner fileset q kind) ts).soft = q.soft ∧
        (reconstructQuotaValue (quotaParamsOf owner fileset q kind) ts).hard = q.hard ∧
        (reconstructQuotaValue (quotaParamsOf owner fileset q kind) ts).doubt = q.doubt ∧
        (reconstructQuotaValue (quotaParamsOf owner fileset q kind) ts).files_used =
          q.files_used ∧
        (reconstructQuotaValue (quotaParamsOf owner fileset q kind) ts).files_soft =
          q.files_soft ∧
        (reconstructQuotaValue (quotaParamsOf owner fileset q kind) ts).files_hard =
          q.files_hard ∧
        (reconstructQuotaValue (quotaParamsOf owner fileset q kind) ts).files_doubt =
          q.files_doubt) :=
  ⟨fun _ _ _ _ => ⟨rfl, rfl, rfl, rfl, rfl, rfl, rfl, rfl, rfl, rfl, rfl, rfl⟩,
   fun _ _ _ _ _ _ _ _ _ _ _ _ _ => ⟨rfl, rfl⟩,
   fun _ _ _ _ _ => ⟨rfl, rfl, rfl, rfl, rfl, rfl, rfl, rfl⟩⟩

set_option maxRecDepth 10000

/-- C4 counterexample: with 201 records pushed one at a time into the
single sink key, exactly one network call has happened (the automatic
flush at the 101st push); in particular no automatic flush occurs at the
201st push, and netCalls after the 200th and the 201st push coincide, so
the claim that the second automatic flush happens at the 201st push is
false. -/
theorem no_autoflush_at_201st_push :
    (pushSeq dispatchInit 200).netCalls = [("st", 101)] ∧
    (pushSeq dispatchInit 201).netCalls = [("st", 101)] := by
  constructor <;> decide

/-- C4 (amended): pushing 250 records one at a time triggers exactly two
automatic flushes, at the 101st and the 202nd push (each sending 101
records, since the flush fires when the counter exceeds 100 and then
resets counter and buffer), and one final flush of the remaining 48
records on scope exit, for a total of exactly 3 network calls. -/
theorem dispatch_250_records_three_calls :
    (pushSeq dispatchInit 100).netCalls = [] ∧
    (pushSeq dispatchInit 101).netCalls = [("st", 101)] ∧
    (pushSeq dispatchInit 201).netCalls = [("st", 101)] ∧
    (pushSeq dispatchInit 202).netCalls = [("st", 101), ("st", 101)] ∧
    (pushSeq dispatchInit 250).netCalls = [("st", 101), ("st", 101)] ∧
    (pushSeq dispatchInit 250).payloadN.length = 48 ∧
    (djangoExit (pushSeq dispatchInit 250) none).1.netCalls =
      [("st", 101), ("st", 101), ("st", 48)] := by
  refine ⟨?_, ?_, ?_, ?_, ?_, ?_, ?_⟩ <;> decide

theorem foldl_inode_aux (quota : String → InodeQuotaRec) (threshold : ℚ) (storage : String)
    (filesets : List FilesetInfo) (acc : List (String × InodeCritical)) :
    filesets.foldl
        (fun acc fs =>
          if inodeCriticalCond quota threshold storage fs then
            acc ++ [inodeCriticalEntry quota storage fs]
          else acc) acc =
      acc ++ (filesets.filter (inodeCriticalCond quota threshold storage)).map
        (inodeCriticalEntry quota storage) := by
  induction filesets generalizing acc with
  | nil => simp
  | cons fs rest ih =>
    by_cases h : inodeCriticalCond quota threshold storage fs
    · simp [List.foldl_cons, List.filter_cons, h, ih, List.append_assoc]
    · simp [List.foldl_cons, List.filter_cons, h, ih]

/-- C8: the inode criticality scan emits an entry for exactly the filesets
passing the criticality test, the test holds iff the maximum inode count
is positive and the usage strictly exceeds threshold times the maximum,
and with threshold 9/10 and maxinodes 1000, usage 901 is reported critical
while usage 900 is not. -/
theorem inode_scan_strict_threshold :
    (∀ (filesets : List FilesetInfo) (quota : String → InodeQuotaRec) (threshold : ℚ)
        (storage : String),
        process_inodes_information filesets quota threshold storage =
          (filesets.filter (inodeCriticalCond quota threshold storage)).map
            (inodeCriticalEntry quota storage)) ∧
    (∀ (quota : String → InodeQuotaRec) (threshold : ℚ) (storage : String)
        (fs : FilesetInfo),
        inodeCriticalCond quota threshold storage fs = true ↔
          (0 < (if storage = "gpfs" then fs.maxInodes else (quota fs.fs_key).filesLimit) ∧
            threshold *
                ((if storage = "gpfs" then fs.maxInodes
                  else (quota fs.fs_key).filesLimit : Int) : ℚ) <
              ((quota fs.fs_key).filesUsage : ℚ))) ∧
    process_inodes_information [FilesetInfo.mk "k" "fsA" 5 1000]
        (fun _ => InodeQuotaRec.mk 901 0) (9 / 10) "gpfs" =
      [("fsA", InodeCritical.mk 901 5 1000)] ∧
    process_inodes_information [FilesetInfo.mk "k" "fsA" 5 1000]
        (fun _ => InodeQuotaRec.mk 900 0) (9 / 10) "gpfs" = [] := by
  refine ⟨?_, ?_, ?_, ?_⟩
  · intro filesets quota threshold storage
    unfold process_inodes_information
    simpa using foldl_inode_aux quota threshold storage filesets []
  · intro quota threshold storage fs
    simp [inodeCriticalCond]
  · norm_num [process_inodes_information, inodeCriticalCond, inodeCriticalEntry]
  · norm_num [process_inodes_information, inodeCriticalCond]

/-- C9: a push whose sink key is neither the bound storage name nor its
shared variant is logged and dropped: the dispatcher state is returned
unchanged, without raising and without aborting the run. -/
theorem push_unknown_sink_key_dropped {A : Type} (s : PusherState A) (key : String)
    (p : A) (h1 : key ≠ s.storage_name) (h2 : key ≠ s.storage_name_shared) :
    s.push key p = s :=
  push_of_unknown_key s key p h1 h2

/-- Witness for C9: pushing to key "bogus" on a dispatcher bound to "st"
and "st_SHARED" leaves the dispatcher state unchanged. -/
theorem push_unknown_sink_key_dropped_witness :
    (mkDjangoPusher Unit "st" "_SHARED" "user" false).push "bogus" () =
      mkDjangoPusher Unit "st" "_SHARED" "user" false :=
  push_unknown_sink_key_dropped (mkDjangoPusher Unit "st" "_SHARED" "user" false) "bogus" ()
    (by decide) (by decide)

/-- C6: in dry-run mode, no sequence of dispatcher operations (buffered
pushes, automatic batch flushes they trigger, scope-exit flushes) ever
contacts the remote sink: the trace of remote calls stays exactly as it
was. -/
theorem dry_run_never_contacts_remote {A : Type} (s : PusherState A)
    (ops : List (PusherOp A)) (h : s.dry_run = true) :
    (runOps s ops).netCalls = s.netCalls := by
  induction ops generalizing s with
  | nil => rfl
  | cons op rest ih =>
    show (runOps (runOp s op) rest).netCalls = s.netCalls
    rw [ih (runOp s op) (by rw [runOp_dry_run]; exact h)]
    exact runOp_netCalls_of_dry_run s op h

/-- Witness for C6: a dry-run dispatcher receiving two pushes and a scope
exit performs no remote call. -/
theorem dry_run_never_contacts_remote_witness :
    (runOps (mkDjangoPusher Unit "st" "_SHARED" "user" true)
        [PusherOp.pushOp "st" (), PusherOp.pushOp "st" (), PusherOp.exitOp none]).netCalls =
      [] :=
  dry_run_never_contacts_remote (mkDjangoPusher Unit "st" "_SHARED" "user" true)
    [PusherOp.pushOp "st" (), PusherOp.pushOp "st" (), PusherOp.exitOp none] rfl

/-- C10: for a dispatcher, the invariant that each per-key counter equals
the length of that key's buffer and that the length never exceeds 101 (in
fact never exceeds 100 between operations) holds at construction and is
preserved by every push and push_quota; a push to an unknown key changes
nothing, a push to one key leaves the other key's counter and buffer
unchanged, and an automatically triggered flush sends exactly 101 records
and leaves the flushed key's buffer empty with its counter reset to 0. -/
theorem dispatcher_counter_buffer_invariant {A : Type} (sn suffix kind : String)
    (dr : Bool) (s : PusherState A) (k : String) (p : A)
    (t : PusherState QuotaParams) (owner : String) (fileset : Option String)
    (qv : QuotaValue) (sh : Bool) (hs : PusherInv s) (ht : PusherInv t) :
    PusherInv (mkDjangoPusher A sn suffix kind dr) ∧
    PusherInv (s.push k p) ∧
    PusherInv (t.push_quota owner fileset qv sh) ∧
    (s.push k p).payloadN.length ≤ 101 ∧
    (s.push k p).payloadS.length ≤ 101 ∧
    (k ≠ s.storage_name → k ≠ s.storage_name_shared → s.push k p = s) ∧
    (k = s.storage_name →
        (s.push k p).countS = s.countS ∧ (s.push k p).payloadS = s.payloadS) ∧
    (k ≠ s.storage_name → k = s.storage_name_shared →
        (s.push k p).countN = s.countN ∧ (s.push k p).payloadN = s.payloadN) ∧
    (k = s.storage_name → 100 < s.countN + 1 →
        (s.push k p).flushLog = s.flushLog ++ [(k, 101)] ∧
        (s.push k p).payloadN = [] ∧ (s.push k p).countN = 0) ∧
    (k ≠ s.storage_name → k = s.storage_name_shared → 100 < s.countS + 1 →
        (s.push k p).flushLog = s.flushLog ++ [(k, 101)] ∧
        (s.push k p).payloadS = [] ∧ (s.push k p).countS = 0) := by
  obtain ⟨i1, i2, i3, i4⟩ := push_inv s k p hs
  refine ⟨⟨rfl, rfl, Nat.zero_le 100, Nat.zero_le 100⟩, push_inv s k p hs, ?_, by omega,
    by omega,
    push_of_unknown_key s k p, push_normal_leaves_shared s k p,
    push_shared_leaves_normal s k p, ?_, ?_⟩
  · simp only [PusherState.push_quota]
    split
    · exact push_inv t _ _ ht
    · exact push_inv t _ _ ht
  · intro hk hc
    exact push_normal_autoflush s k p hk hs.1 hs.2.2.1 hc
  · intro hk1 hk2 hc
    exact push_shared_autoflush s k p hk1 hk2 hs.2.1 hs.2.2.2 hc

/-- Witness for C10: the invariant holds after a push on a freshly
constructed dispatcher, and a push to an unknown key leaves the state
unchanged. -/
theorem dispatcher_counter_buffer_invariant_witness :
    PusherInv ((mkDjangoPusher Unit "st" "_SHARED" "user" false).push "st" ()) ∧
    ((mkDjangoPusher Unit "st" "_SHARED" "user" false).push "nope" () =
      mkDjangoPusher Unit "st" "_SHARED" "user" false) :=
  have h1 := dispatcher_counter_buffer_invariant "st" "_SHARED" "user" false
    (mkDjangoPusher Unit "st" "_SHARED" "user" false) "st" ()
    (mkDjangoPusher QuotaParams "st" "_SHARED" "user" false) "vsc40001" none
    (QuotaValue.mk 1 2 3 4 (false, none) 5 6 7 8 (false, none) 9) false
    (by decide) (by decide)
  have h2 := dispatcher_counter_buffer_invariant "st" "_SHARED" "user" false
    (mkDjangoPusher Unit "st" "_SHARED" "user" false) "nope" ()
    (mkDjangoPusher QuotaParams "st" "_SHARED" "user" false) "vsc40001" none
    (QuotaValue.mk 1 2 3 4 (false, none) 5 6 7 8 (false, none) 9) false
    (by decide) (by decide)
  ⟨h1.2.1, h2.2.2.2.2.2.1 (by decide) (by decide)⟩
